import Mathlib

/-!
# Vics Tower Defense — verification of the wave/combat core

Shallow embedding of the simulation core of the repository
(`src/game.js`, Revision 8, and the Revision-12 file `src/unnamed/part_002`
which adds the skill tree).  JavaScript numbers are modelled as exact
rationals (`ℚ`); `Math.ceil` / `Math.floor` become `Int.ceil` / `Int.floor`.
`Math.hypot dx dy` is irrational in general, so wherever the code only
*compares* a distance against a bound `c ≥ 0` we use the exactly equivalent
squared comparison `dx^2 + dy^2 < c^2`; where the code *divides* by the
distance (movement normalisation) the distance is passed as an explicit
argument, constrained in the theorems by `0 ≤ dist ∧ dist^2 = dx^2 + dy^2`.
-/

namespace Tower

/-! ## Enemy type templates (`EnemyTypes` in game.js) -/

/-- The `special` tag of an enemy type (`'HEAL'` / `'SPLIT'` in the source). -/
inductive Special where
  | HEAL
  | SPLIT
deriving DecidableEq, Repr

/-- Tag naming which `EnemyTypes` template an enemy value came from. -/
inductive EnemyTag where
  | NORMAL
  | TANK
  | RUNNER
  | HEALER
  | SPLITTER
deriving DecidableEq, Repr

/-- An enemy type template: `{ hp, speed, reward, size, color, special }`
(the color string is presentation-only and omitted). -/
structure EnemyType where
  tag : EnemyTag
  hp : ℚ
  speed : ℚ
  reward : ℚ
  size : ℚ
  special : Option Special
deriving DecidableEq, Repr

namespace EnemyTypes

/-- `NORMAL: { hp: 30, speed: 40, reward: 5, size: 20 }`. -/
def NORMAL : EnemyType := ⟨.NORMAL, 30, 40, 5, 20, none⟩

/-- `TANK: { hp: 100, speed: 25, reward: 10, size: 30 }`. -/
def TANK : EnemyType := ⟨.TANK, 100, 25, 10, 30, none⟩

/-- `RUNNER: { hp: 15, speed: 80, reward: 3, size: 15 }`. -/
def RUNNER : EnemyType := ⟨.RUNNER, 15, 80, 3, 15, none⟩

/-- `HEALER: { hp: 40, speed: 30, reward: 15, size: 22, special: 'HEAL' }`. -/
def HEALER : EnemyType := ⟨.HEALER, 40, 30, 15, 22, some .HEAL⟩

/-- `SPLITTER: { hp: 50, speed: 35, reward: 8, size: 28, special: 'SPLIT' }`. -/
def SPLITTER : EnemyType := ⟨.SPLITTER, 50, 35, 8, 28, some .SPLIT⟩

end EnemyTypes

/-! ## Wave composition (`WaveManager.generateWaveComposition`) -/

/--
`generateWaveComposition()` for wave number `wave`: `baseCount = 8 + wave*2`
NORMAL enemies, plus `wave` RUNNERs when `wave > 1`, `⌊wave/2⌋` TANKs when
`wave > 3`, `⌊wave/3⌋` SPLITTERs when `wave > 5` and `⌊wave/4⌋` HEALERs when
`wave > 7`, in push order.  The final `sort(() => Math.random() - 0.5)`
shuffle only permutes the list and is omitted; every property proved below
(counts, length) is invariant under permutation.
-/
def generateWaveComposition (wave : ℕ) : List EnemyType :=
  List.replicate (8 + wave * 2) EnemyTypes.NORMAL
    ++ (if wave > 1 then List.replicate wave EnemyTypes.RUNNER else [])
    ++ (if wave > 3 then List.replicate (wave / 2) EnemyTypes.TANK else [])
    ++ (if wave > 5 then List.replicate (wave / 3) EnemyTypes.SPLITTER else [])
    ++ (if wave > 7 then List.replicate (wave / 4) EnemyTypes.HEALER else [])

/-- Multiplicity of the template of tag `t` in a composition list. -/
def compCount (l : List EnemyType) (t : EnemyTag) : ℕ :=
  l.countP (fun e => e.tag = t)

theorem compCount_append (l₁ l₂ : List EnemyType) (t : EnemyTag) :
    compCount (l₁ ++ l₂) t = compCount l₁ t + compCount l₂ t := by
  simp [compCount, List.countP_append]

theorem compCount_replicate (n : ℕ) (e : EnemyType) (t : EnemyTag) :
    compCount (List.replicate n e) t = if e.tag = t then n else 0 := by
  by_cases h : e.tag = t <;> simp [compCount, List.countP_replicate, h]

/-- **C9.** The generated wave composition is, as a multiset (ignoring the
random shuffle), determined by the wave number `N ≥ 1`: `8 + 2N` NORMAL,
`N` RUNNER iff `N > 1`, `⌊N/2⌋` TANK iff `N > 3`, `⌊N/3⌋` SPLITTER iff
`N > 5`, `⌊N/4⌋` HEALER iff `N > 7`; in particular wave 1 is exactly
10 NORMAL enemies and nothing else. -/
theorem generateWaveComposition_counts (N : ℕ) (hN : 1 ≤ N) :
    compCount (generateWaveComposition N) .NORMAL = 8 + 2 * N ∧
    compCount (generateWaveComposition N) .RUNNER = (if N > 1 then N else 0) ∧
    compCount (generateWaveComposition N) .TANK = (if N > 3 then N / 2 else 0) ∧
    compCount (generateWaveComposition N) .SPLITTER = (if N > 5 then N / 3 else 0) ∧
    compCount (generateWaveComposition N) .HEALER = (if N > 7 then N / 4 else 0) ∧
    generateWaveComposition 1 = List.replicate 10 EnemyTypes.NORMAL := by
  refine ⟨?_, ?_, ?_, ?_, ?_, ?_⟩
  · by_cases h1 : N > 1 <;> by_cases h3 : N > 3 <;> by_cases h5 : N > 5 <;>
      by_cases h7 : N > 7 <;>
      simp [generateWaveComposition, compCount_append, compCount_replicate,
        EnemyTypes.NORMAL, EnemyTypes.RUNNER, EnemyTypes.TANK,
        EnemyTypes.SPLITTER, EnemyTypes.HEALER, h1, h3, h5, h7] <;> ring
  · by_cases h1 : N > 1 <;> by_cases h3 : N > 3 <;> by_cases h5 : N > 5 <;>
      by_cases h7 : N > 7 <;>
      simp [generateWaveComposition, compCount_append, compCount_replicate,
        EnemyTypes.NORMAL, EnemyTypes.RUNNER, EnemyTypes.TANK,
        EnemyTypes.SPLITTER, EnemyTypes.HEALER, h1, h3, h5, h7]
  · by_cases h1 : N > 1 <;> by_cases h3 : N > 3 <;> by_cases h5 : N > 5 <;>
      by_cases h7 : N > 7 <;>
      simp [generateWaveComposition, compCount_append, compCount_replicate,
        EnemyTypes.NORMAL, EnemyTypes.RUNNER, EnemyTypes.TANK,
        EnemyTypes.SPLITTER, EnemyTypes.HEALER, h1, h3, h5, h7]
  · by_cases h1 : N > 1 <;> by_cases h3 : N > 3 <;> by_cases h5 : N > 5 <;>
      by_cases h7 : N > 7 <;>
      simp [generateWaveComposition, compCount_append, compCount_replicate,
        EnemyTypes.NORMAL, EnemyTypes.RUNNER, EnemyTypes.TANK,
        EnemyTypes.SPLITTER, EnemyTypes.HEALER, h1, h3, h5, h7]
  · by_cases h1 : N > 1 <;> by_cases h3 : N > 3 <;> by_cases h5 : N > 5 <;>
      by_cases h7 : N > 7 <;>
      simp [generateWaveComposition, compCount_append, compCount_replicate,
        EnemyTypes.NORMAL, EnemyTypes.RUNNER, EnemyTypes.TANK,
        EnemyTypes.SPLITTER, EnemyTypes.HEALER, h1, h3, h5, h7]
  · norm_num [generateWaveComposition]

/-- Witness for C9 at the concrete wave `N = 8` (all five thresholds met). -/
theorem generateWaveComposition_counts_witness :
    compCount (generateWaveComposition 8) .NORMAL = 24 ∧
    compCount (generateWaveComposition 8) .RUNNER = 8 ∧
    compCount (generateWaveComposition 8) .TANK = 4 ∧
    compCount (generateWaveComposition 8) .SPLITTER = 2 ∧
    compCount (generateWaveComposition 8) .HEALER = 2 := by
  obtain ⟨h₁, h₂, h₃, h₄, h₅, -⟩ :=
    generateWaveComposition_counts 8 (by norm_num)
  refine ⟨?_, ?_, ?_, ?_, ?_⟩ <;> simp_all

/-! ## Enemies (`class Enemy`)

Combat-relevant fields only: the presentation/timing fields (`color`,
`hitFlash`, `stunnedUntil`, `specialTimer`) and the path cursor
(`pathIndex`) are omitted — no claim mentions them, and none of them feeds
back into `hp`/`maxHp`/`active`.  Path-following and stun change only
`x`/`y`, which the reachability relation below covers with an arbitrary
position update. -/

structure Enemy where
  active : Bool
  x : ℚ
  y : ℚ
  hp : ℚ
  maxHp : ℚ
  speed : ℚ
  reward : ℚ
  size : ℚ
  special : Option Special
deriving DecidableEq, Repr

/-- The spawn HP multiplier `waveModifier = 1 + this.wave * 0.15` used by
`WaveManager.update` when it initialises a spawned enemy. -/
def waveModifier (wave : ℕ) : ℚ := 1 + wave * (15 / 100)

/-- `Enemy.init(type, waveModifier)`: activate, place at `gamePath[0]`
(passed here as `x0, y0`), set `hp = type.hp * waveModifier` and
`maxHp = hp`, and copy the template stats. -/
def enemyInit (t : EnemyType) (m : ℚ) (x0 y0 : ℚ) : Enemy :=
  { active := true, x := x0, y := y0, hp := t.hp * m, maxHp := t.hp * m,
    speed := t.speed, reward := t.reward, size := t.size,
    special := t.special }

/-- The reduced-stat child template of a SPLITTER death:
`{ ...EnemyTypes.NORMAL, size: 15, reward: 1 }`. -/
def splitChildType : EnemyType :=
  { EnemyTypes.NORMAL with size := 15, reward := 1 }

/-- Child `i ∈ {0,1}` of a SPLITTER death: `e.init(childType, 1)` followed
by `e.x = this.x + (i * 20 - 10); e.y = this.y` (`init` reads `gamePath[0]`
but both coordinates are immediately overwritten). -/
def splitChild (e : Enemy) (i : ℕ) : Enemy :=
  { enemyInit splitChildType 1 e.x e.y with
    x := e.x + ((i : ℚ) * 20 - 10), y := e.y }

/-- `Enemy.die()`: deactivate; when `special === 'SPLIT'`, produce the two
children of the `for (let i = 0; i < 2; i++)` loop.  The gold/kill-counter
bookkeeping (`TDState.enemiesKilled++`, `TDState.gold += reward`) and the
pool slot the children land in (`find(en => !en.active)` or push) are
modelled in the wave-system section. -/
def enemyDie (e : Enemy) : Enemy × List Enemy :=
  ({ e with active := false },
    if e.special = some .SPLIT then [splitChild e 0, splitChild e 1] else [])

/-- `Enemy.takeDamage(dmg)`: no-op on an inactive enemy; otherwise
`hp -= dmg`, dying when `hp <= 0`.  The boolean the source returns is
visible here as whether `.1.active` flipped; the second component is the
list of SPLIT children. -/
def enemyTakeDamage (e : Enemy) (dmg : ℚ) : Enemy × List Enemy :=
  if e.active = false then (e, [])
  else
    let e' := { e with hp := e.hp - dmg }
    if e'.hp ≤ 0 then enemyDie e' else (e', [])

/-- The HEAL-aura assignment applied to a recipient `e` in range of a
healer of max HP `healerMaxHp`:
`e.hp = Math.min(e.maxHp, e.hp + healer.maxHp * 0.1)`. -/
def healApply (e : Enemy) (healerMaxHp : ℚ) : Enemy :=
  { e with hp := min e.maxHp (e.hp + healerMaxHp * (1 / 10)) }

/-- Every state an enemy slot passes through: initialised at spawn, moved
along the path (or held by stun — only `x`/`y` vary), damaged by a
projectile (damage values in the game are `hero.damage * (1 | 2.5 | 0.5…)`
with `hero.damage ≥ 25`, hence nonnegative), healed by a HEALER aura (the
source guards the heal with `e.hp < e.maxHp`), or born as a SPLIT child of
a dying reachable enemy. -/
inductive EnemyReach : Enemy → Prop where
  | init (t : EnemyType) (m x0 y0 : ℚ) : EnemyReach (enemyInit t m x0 y0)
  | move (e : Enemy) (x' y' : ℚ) :
      EnemyReach e → EnemyReach { e with x := x', y := y' }
  | damage (e : Enemy) (dmg : ℚ) (hd : 0 ≤ dmg) :
      EnemyReach e → EnemyReach (enemyTakeDamage e dmg).1
  | heal (e : Enemy) (healerMaxHp : ℚ) (hlt : e.hp < e.maxHp) :
      EnemyReach e → EnemyReach (healApply e healerMaxHp)
  | child (e : Enemy) (dmg : ℚ) (c : Enemy) (hd : 0 ≤ dmg)
      (hc : c ∈ (enemyTakeDamage e dmg).2) :
      EnemyReach e → EnemyReach c

/-- **C10.** Every enemy state reachable through the game's operations
satisfies `hp ≤ maxHp`: `init` establishes `hp = maxHp`, `takeDamage`
(with the game's nonnegative damage) only lowers `hp`, and the HEALER aura
clamps at `maxHp`. -/
theorem enemyReach_hp_le_maxHp (e : Enemy) (h : EnemyReach e) :
    e.hp ≤ e.maxHp := by
  induction h with
  | init t m x0 y0 => simp [enemyInit]
  | move e x' y' _ ih => simpa using ih
  | damage e dmg hd _ ih =>
      by_cases ha : e.active = false
      · simpa [enemyTakeDamage, ha] using ih
      · by_cases hz : e.hp - dmg ≤ 0 <;>
          simp [enemyTakeDamage, ha, hz, enemyDie] <;> linarith
  | heal e hm _ _ => simp [healApply]
  | child e dmg c hd hc _ =>
      by_cases ha : e.active = false
      · simp [enemyTakeDamage, ha] at hc
      · by_cases hz : e.hp - dmg ≤ 0
        · by_cases hs : e.special = some .SPLIT
          · simp [enemyTakeDamage, ha, hz, enemyDie, hs] at hc
            rcases hc with hc | hc <;> subst hc <;>
              simp [splitChild, enemyInit, splitChildType,
                EnemyTypes.NORMAL]
          · simp [enemyTakeDamage, ha, hz, enemyDie, hs] at hc
        · simp [enemyTakeDamage, ha, hz] at hc

/-- Witness for C10: a freshly spawned wave-1 NORMAL enemy. -/
theorem enemyReach_hp_le_maxHp_witness :
    (enemyInit EnemyTypes.NORMAL (waveModifier 1) 0 0).hp ≤
      (enemyInit EnemyTypes.NORMAL (waveModifier 1) 0 0).maxHp :=
  enemyReach_hp_le_maxHp _ (EnemyReach.init EnemyTypes.NORMAL (waveModifier 1) 0 0)

/-- A SPLITTER template only ever enters a wave composition when the wave
number exceeds 5 (`if (this.wave > 5)` guard in
`generateWaveComposition`). -/
theorem splitter_mem_composition_wave (w : ℕ)
    (hw : EnemyTypes.SPLITTER ∈ generateWaveComposition w) : 5 < w := by
  by_contra h
  push_neg at h
  have h5 : ¬ w > 5 := by omega
  have h7 : ¬ w > 7 := by omega
  by_cases h1 : w > 1 <;> by_cases h3 : w > 3 <;>
    simp [generateWaveComposition, h1, h3, h5, h7, List.mem_append,
      List.mem_replicate, EnemyTypes.SPLITTER, EnemyTypes.NORMAL,
      EnemyTypes.RUNNER, EnemyTypes.TANK] at hw

/-- **C8.** When a SPLITTER that the wave system could actually have
spawned (its template occurs in the wave-`w` composition, so `w > 5`, and
it was initialised with that wave's modifier) dies, exactly 2 children are
activated — reduced-stat NORMAL variants placed at the death location —
and the children's max-HP sum (30 + 30) is strictly below the parent's
max-HP (`50 * (1 + 0.15 w) ≥ 95`). -/
theorem splitter_die_balance (w : ℕ) (x0 y0 : ℚ)
    (hw : EnemyTypes.SPLITTER ∈ generateWaveComposition w) :
    ((enemyDie (enemyInit EnemyTypes.SPLITTER (waveModifier w) x0 y0)).2).length = 2 ∧
    (∀ c ∈ (enemyDie (enemyInit EnemyTypes.SPLITTER (waveModifier w) x0 y0)).2,
      c.active = true ∧ c.special = none ∧
      c.y = (enemyInit EnemyTypes.SPLITTER (waveModifier w) x0 y0).y) ∧
    (((enemyDie (enemyInit EnemyTypes.SPLITTER (waveModifier w) x0 y0)).2).map
        Enemy.maxHp).sum <
      (enemyInit EnemyTypes.SPLITTER (waveModifier w) x0 y0).maxHp := by
  have hw5 : 5 < w := splitter_mem_composition_wave w hw
  have hwq : (6 : ℚ) ≤ (w : ℚ) := by exact_mod_cast hw5
  refine ⟨?_, ?_, ?_⟩
  · simp [enemyDie, enemyInit, EnemyTypes.SPLITTER]
  · intro c hc
    simp [enemyDie, enemyInit, EnemyTypes.SPLITTER] at hc
    rcases hc with hc | hc <;> subst hc <;>
      simp [splitChild, enemyInit, splitChildType, EnemyTypes.NORMAL]
  · simp only [enemyDie, enemyInit, EnemyTypes.SPLITTER]
    simp [splitChild, enemyInit, splitChildType, EnemyTypes.NORMAL,
      waveModifier]
    nlinarith [hwq]

/-- Witness for C8 at wave 6 (the first wave whose composition contains a
SPLITTER), spawn point `(0, 0)`. -/
theorem splitter_die_balance_witness :
    ((enemyDie (enemyInit EnemyTypes.SPLITTER (waveModifier 6) 0 0)).2).length = 2 ∧
    (((enemyDie (enemyInit EnemyTypes.SPLITTER (waveModifier 6) 0 0)).2).map
        Enemy.maxHp).sum <
      (enemyInit EnemyTypes.SPLITTER (waveModifier 6) 0 0).maxHp := by
  have hmem : EnemyTypes.SPLITTER ∈ generateWaveComposition 6 := by
    simp [generateWaveComposition, List.mem_append, List.mem_replicate]
  have h := splitter_die_balance 6 0 0 hmem
  exact ⟨h.1, h.2.2⟩

/-! ## Upgrade economy (`UpgradeManager` and `Hero.upgrade`)

`MAXS = { HERO_DAMAGE: 10000, HERO_RANGE: 500, HERO_FIRE_RATE: 20,
CRIT_CHANCE: 90 }`, `UPGRADE_COST_MULT = 1.18`.  The discount factor comes
from `MetaUpgrades.getBonus('upgradeDiscount') = 1 - level/100` with
`level ∈ [0,10]`, i.e. a value in `[0.9, 1] ⊆ (0,1]`; it is a parameter of
the definitions below. -/

/-- The four per-run upgradable stats of `UpgradeManager.levels`. -/
inductive UStat where
  | damage
  | range
  | fireRate
  | crit
deriving DecidableEq, Repr

/-- `UpgradeManager.baseCosts` (copied from `costs` at `init()`):
`{ damage: 50, range: 60, fireRate: 80, crit: 120 }`. -/
def baseCost : UStat → ℚ
  | .damage => 50
  | .range => 60
  | .fireRate => 80
  | .crit => 120

/-- `UPGRADE_COST_MULT = 1.18`. -/
def UPGRADE_COST_MULT : ℚ := 118 / 100

/-- `UpgradeManager.getCost(stat)` =
`Math.ceil(base * Math.pow(1.18, lvl) * discount)`. -/
def getCost (stat : UStat) (lvl : ℕ) (discount : ℚ) : ℤ :=
  ⌈baseCost stat * UPGRADE_COST_MULT ^ lvl * discount⌉

/-- The state read and written by `Hero.upgrade`: the shared gold pot
(`TDState.gold`), the `UpgradeManager.levels` table and the hero's four
stat values. -/
structure UpgradeState where
  gold : ℚ
  levels : UStat → ℕ
  heroDamage : ℚ
  heroRange : ℚ
  heroFireRate : ℚ
  heroCrit : ℚ

/-- `UpgradeManager.canAffordUpgrade(stat)`: `TDState.gold >= getCost(stat)`. -/
def canAffordUpgrade (s : UpgradeState) (stat : UStat) (discount : ℚ) : Bool :=
  (getCost stat (s.levels stat) discount : ℚ) ≤ s.gold

/-- `UpgradeManager.payForUpgrade(stat)`: `TDState.gold -= getCost(stat);
levels[stat]++` — the cost is read at the *pre*-increment level. -/
def payForUpgrade (s : UpgradeState) (stat : UStat) (discount : ℚ) :
    UpgradeState :=
  { s with
    gold := s.gold - (getCost stat (s.levels stat) discount : ℚ)
    levels := fun t => if t = stat then s.levels t + 1 else s.levels t }

/-- The `switch (stat)` body of `Hero.upgrade`: bump the hero stat by its
fixed per-level delta, clamped at the `MAXS` cap. -/
def bumpHeroStat (s : UpgradeState) : UStat → UpgradeState
  | .damage => { s with heroDamage := min 10000 (s.heroDamage + 6) }
  | .range => { s with heroRange := min 500 (s.heroRange + 10) }
  | .fireRate => { s with heroFireRate := min 20 (s.heroFireRate + 15 / 100) }
  | .crit => { s with heroCrit := min 90 (s.heroCrit + 1) }

/-- `Hero.upgrade(stat)`: reject (feedback trigger only, returned as the
`false` flag) when `!canAffordUpgrade(stat)`; otherwise `payForUpgrade`
then bump the hero stat. -/
def heroUpgrade (s : UpgradeState) (stat : UStat) (discount : ℚ) :
    UpgradeState × Bool :=
  if canAffordUpgrade s stat discount = false then (s, false)
  else (bumpHeroStat (payForUpgrade s stat discount) stat, true)

/-- **C2.** With `gold < getCost(stat)`, `Hero.upgrade(stat)` leaves the
entire state — gold, every upgrade level and every hero stat — unchanged;
its only effect is the insufficient-funds feedback (the `false` flag). -/
theorem heroUpgrade_insufficient_noop (s : UpgradeState) (stat : UStat)
    (discount : ℚ)
    (h : s.gold < (getCost stat (s.levels stat) discount : ℚ)) :
    heroUpgrade s stat discount = (s, false) := by
  have hc : canAffordUpgrade s stat discount = false := by
    simp only [canAffordUpgrade, decide_eq_false_iff_not, not_le]
    exact h
  simp [heroUpgrade, hc]

/-- Witness for C2: 40 gold cannot pay the level-0 damage cost of 50
(no discount), and the state survives untouched. -/
theorem heroUpgrade_insufficient_noop_witness :
    heroUpgrade ⟨40, fun _ => 0, 25, 180, 12 / 10, 5⟩ .damage 1 =
      (⟨40, fun _ => 0, 25, 180, 12 / 10, 5⟩, false) := by
  refine heroUpgrade_insufficient_noop _ _ _ ?_
  norm_num [getCost, baseCost, UPGRADE_COST_MULT]

/-- **C3.** With `gold ≥ getCost(stat)`, `Hero.upgrade(stat)` subtracts
exactly the cost evaluated at the pre-state level and increments exactly
the level of `stat` by 1 (other levels untouched). -/
theorem heroUpgrade_success (s : UpgradeState) (stat : UStat) (discount : ℚ)
    (h : (getCost stat (s.levels stat) discount : ℚ) ≤ s.gold) :
    (heroUpgrade s stat discount).1.gold =
        s.gold - (getCost stat (s.levels stat) discount : ℚ) ∧
    (heroUpgrade s stat discount).1.levels stat = s.levels stat + 1 ∧
    (∀ t : UStat, t ≠ stat →
      (heroUpgrade s stat discount).1.levels t = s.levels t) ∧
    (heroUpgrade s stat discount).2 = true := by
  have hc : canAffordUpgrade s stat discount = true := by
    simpa [canAffordUpgrade] using h
  cases stat <;>
    simp [heroUpgrade, hc, payForUpgrade, bumpHeroStat]

/-- Witness for C3: with 100 gold, the level-0 damage upgrade (cost 50,
no discount) leaves 50 gold and takes the damage level to 1. -/
theorem heroUpgrade_success_witness :
    (heroUpgrade ⟨100, fun _ => 0, 25, 180, 12 / 10, 5⟩ .damage 1).1.gold = 50 ∧
    (heroUpgrade ⟨100, fun _ => 0, 25, 180, 12 / 10, 5⟩ .damage 1).1.levels
        .damage = 1 := by
  have h := heroUpgrade_success ⟨100, fun _ => 0, 25, 180, 12 / 10, 5⟩ .damage 1
    (by norm_num [getCost, baseCost, UPGRADE_COST_MULT])
  refine ⟨?_, h.2.1⟩
  have hg := h.1
  norm_num [getCost, baseCost, UPGRADE_COST_MULT] at hg ⊢
  exact hg

/-- **C5.** For every stat, level `L` and fixed discount `d ∈ (0,1]`, the
upgrade cost `⌈base * 1.18^L * d⌉` is monotonically non-decreasing in the
level: `getCost(stat, L+1) ≥ getCost(stat, L)`. -/
theorem getCost_mono (stat : UStat) (L : ℕ) (d : ℚ) (hd0 : 0 < d)
    (hd1 : d ≤ 1) : getCost stat L d ≤ getCost stat (L + 1) d := by
  apply Int.ceil_le_ceil
  have hbase : (0 : ℚ) < baseCost stat := by cases stat <;> norm_num [baseCost]
  have hpow : UPGRADE_COST_MULT ^ L ≤ UPGRADE_COST_MULT ^ (L + 1) := by
    apply pow_le_pow_right₀ (by norm_num [UPGRADE_COST_MULT])
    omega
  have := mul_le_mul_of_nonneg_left hpow (le_of_lt hbase)
  exact mul_le_mul_of_nonneg_right this (le_of_lt hd0)

/-- Witness for C5 at `stat = crit`, `L = 0`, `d = 9/10` (the maximal
meta-progression discount): cost goes from 108 to 128. -/
theorem getCost_mono_witness :
    getCost .crit 0 (9 / 10) ≤ getCost .crit 1 (9 / 10) :=
  getCost_mono .crit 0 (9 / 10) (by norm_num) (by norm_num)

/-! ## Wave manager (`class WaveManager`) and the wave state machine

State of `WaveManager` together with the `TDState` fields it touches
(`betweenWaves`, `wave`, `gold`, `gemsEarned`) and the enemy pool projected
to its `active` flags — the only enemy datum the wave machine reads
(`TDState.enemies.filter(e => e.active).length`).  `waveComposition` is
kept as its length `enemiesToSpawn` (the code sets
`enemiesToSpawn = waveComposition.length` and the random shuffle preserves
length); which template each spawn uses does not influence the machine. -/

structure WaveSys where
  wave : ℕ
  spawning : Bool
  spawnFinished : Bool
  betweenWaves : Bool
  enemiesToSpawn : ℕ
  spawned : ℕ
  spawnTimer : ℚ
  gold : ℚ
  gemsEarned : ℕ
  enemies : List Bool

/-- `WaveManager.reset()` composed with the fresh `TDState`:
wave 0, not spawning, between waves, 100 gold, empty pool. -/
def initialWaveSys : WaveSys :=
  { wave := 0, spawning := false, spawnFinished := false,
    betweenWaves := true, enemiesToSpawn := 0, spawned := 0, spawnTimer := 0,
    gold := 100, gemsEarned := 0, enemies := [] }

/-- Acquire a pool slot: `TDState.enemies.find(en => !en.active)` reused
(set active), else a fresh enemy is pushed. -/
def spawnSlot : List Bool → List Bool
  | [] => [true]
  | b :: rest => if b then b :: spawnSlot rest else true :: rest

/-- `WaveManager.startNextWave()`: no-op while spawning; otherwise leave
the between-waves phase, bump the wave counter, build the new composition
(its length becomes `enemiesToSpawn`) and arm spawning. -/
def startNextWave (s : WaveSys) : WaveSys :=
  if s.spawning then s
  else
    { s with
      betweenWaves := false
      wave := s.wave + 1
      enemiesToSpawn := (generateWaveComposition (s.wave + 1)).length
      spawned := 0
      spawnTimer := 0
      spawning := true
      spawnFinished := false }

/-- `WaveManager.endWave()`: stop spawning, re-enter the between-waves
phase, grant the gold bonus `15 * wave` and `1 + ⌊wave/5⌋` gems. -/
def endWave (s : WaveSys) : WaveSys :=
  { s with
    spawning := false
    betweenWaves := true
    gold := s.gold + 15 * s.wave
    gemsEarned := s.gemsEarned + (1 + s.wave / 5) }

/-- The `if (this.spawning)` block of `WaveManager.update(dt)`: accumulate
`spawnTimer += dt * 1000`; when it exceeds
`interval = max(100, 600 - wave*10)` and entries remain, spawn the next
composition entry (timer reset to 0); once `spawned >= enemiesToSpawn`,
flip to `spawnFinished`. -/
def wmSpawnPhase (s : WaveSys) (dt : ℚ) : WaveSys :=
  if s.spawning then
    let interval : ℚ := max 100 (600 - (s.wave : ℚ) * 10)
    let timer := s.spawnTimer + dt * 1000
    let s' :=
      if timer > interval ∧ s.spawned < s.enemiesToSpawn then
        { s with
          spawnTimer := 0
          spawned := s.spawned + 1
          enemies := spawnSlot s.enemies }
      else { s with spawnTimer := timer }
    if s'.spawned ≥ s'.enemiesToSpawn then
      { s' with spawning := false, spawnFinished := true }
    else s'
  else s

/-- `WaveManager.update(dt)`: the spawning phase, then the clear check —
`endWave()` fires exactly when `spawnFinished && !betweenWaves` and the
active-enemy count is zero.  The boolean records whether `endWave` was
triggered in this tick. -/
def wmUpdate (s : WaveSys) (dt : ℚ) : WaveSys × Bool :=
  let s1 := wmSpawnPhase s dt
  if s1.spawnFinished = true ∧ s1.betweenWaves = false ∧
      s1.enemies.count true = 0 then
    (endWave s1, true)
  else (s1, false)

/-- States of the wave machine reachable in a run: the fresh state, wave
starts (covering both the auto start and `callWaveEarly`, whose extra gold
a `kill` step below can also absorb), update ticks, enemy deaths
(`die()`: flag cleared, reward paid), SPLIT children claiming two pool
slots, enemies reaching the path end (flag cleared), and `loadGame`
restoring `wave`/`gold`/`gemsEarned` onto a fresh manager. -/
inductive ReachableW : WaveSys → Prop where
  | init : ReachableW initialWaveSys
  | start (s : WaveSys) : ReachableW s → ReachableW (startNextWave s)
  | tick (s : WaveSys) (dt : ℚ) : ReachableW s → ReachableW (wmUpdate s dt).1
  | kill (s : WaveSys) (i : ℕ) (reward : ℚ) : ReachableW s →
      ReachableW
        { s with
          enemies := s.enemies.set i false
          gold := s.gold + reward }
  | split (s : WaveSys) : ReachableW s →
      ReachableW { s with enemies := spawnSlot (spawnSlot s.enemies) }
  | reachEnd (s : WaveSys) (i : ℕ) : ReachableW s →
      ReachableW { s with enemies := s.enemies.set i false }
  | load (w gems : ℕ) (g : ℚ) :
      ReachableW
        { initialWaveSys with
          wave := w
          gold := g
          gemsEarned := gems }

/-- The spawn-count invariant of the wave machine: the spawn cursor never
passes the composition length, and `spawnFinished` certifies that every
composition entry has been spawned. -/
def WaveInv (s : WaveSys) : Prop :=
  s.spawned ≤ s.enemiesToSpawn ∧
  (s.spawnFinished = true → s.spawned = s.enemiesToSpawn)

theorem wmSpawnPhase_inv (s : WaveSys) (dt : ℚ) (h : WaveInv s) :
    WaveInv (wmSpawnPhase s dt) := by
  obtain ⟨h₁, h₂⟩ := h
  by_cases hsp : s.spawning = true
  · simp only [wmSpawnPhase, hsp, if_true]
    split_ifs with hcond hfin hfin
    · obtain ⟨-, hlt⟩ := hcond
      exact ⟨hlt, fun _ => le_antisymm hlt hfin⟩
    · obtain ⟨-, hlt⟩ := hcond
      exact ⟨hlt, fun hf => absurd (h₂ hf) (Nat.ne_of_lt hlt)⟩
    · exact ⟨h₁, fun _ => le_antisymm h₁ hfin⟩
    · exact ⟨h₁, h₂⟩
  · simp only [wmSpawnPhase, hsp, if_false]
    exact ⟨h₁, h₂⟩

theorem wmUpdate_inv (s : WaveSys) (dt : ℚ) (h : WaveInv s) :
    WaveInv (wmUpdate s dt).1 := by
  have h1 := wmSpawnPhase_inv s dt h
  simp only [wmUpdate]
  split_ifs with hc
  · exact ⟨h1.1, h1.2⟩
  · exact h1

theorem reachableW_inv (s : WaveSys) (h : ReachableW s) : WaveInv s := by
  induction h with
  | init => exact ⟨Nat.le_refl 0, fun hf => by simp [initialWaveSys] at hf⟩
  | start s _ ih =>
      unfold startNextWave
      split_ifs with hsp
      · exact ih
      · exact ⟨Nat.zero_le _, fun hf => by simp at hf⟩
  | tick s dt _ ih => exact wmUpdate_inv s dt ih
  | kill s i reward _ ih => exact ih
  | split s _ ih => exact ih
  | reachEnd s i _ ih => exact ih
  | load w gems g =>
      exact ⟨Nat.le_refl 0, fun hf => by simp [initialWaveSys] at hf⟩

/-- **C1.** In every reachable state of the wave machine, an update tick
triggers `endWave` only when the spawn cursor equals the composition
length (every entry spawned) *and* the active-enemy count is zero; early
kills that empty the active set while spawning is still in progress can
never fire it. -/
theorem endWave_trigger_conditions (s : WaveSys) (dt : ℚ)
    (h : ReachableW s) (htrig : (wmUpdate s dt).2 = true) :
    (wmUpdate s dt).1.spawned = (wmUpdate s dt).1.enemiesToSpawn ∧
    (wmUpdate s dt).1.enemies.count true = 0 := by
  have hinv : WaveInv (wmSpawnPhase s dt) :=
    wmSpawnPhase_inv s dt (reachableW_inv s h)
  simp only [wmUpdate] at htrig ⊢
  split_ifs at htrig ⊢ with hc
  exact ⟨hinv.2 hc.1, hc.2.2⟩

/-! Concrete run for the C1 witness: start wave 1 (10 NORMAL enemies),
tick 10 spawns through (dt = 1 s, so the 1000 ms timer beats the 590 ms
interval every tick), let all 10 enemies drop out, then observe the tick
that fires `endWave`. -/

/-- Wave-1 state after `k` spawning ticks (`k < 10`). -/
def wmWitState (k : ℕ) : WaveSys :=
  ⟨1, true, false, false, 10, k, 0, 100, 0, List.replicate k true⟩

/-- Wave-1 state with all 10 enemies spawned and the first `j` of them
gone. -/
def wmWitDead (j : ℕ) : WaveSys :=
  ⟨1, false, true, false, 10, 10, 0, 100, 0,
    List.replicate j false ++ List.replicate (10 - j) true⟩

theorem spawnSlot_replicate_true (n : ℕ) :
    spawnSlot (List.replicate n true) = List.replicate (n + 1) true := by
  induction n with
  | zero => rfl
  | succ n ih => simp [List.replicate_succ, spawnSlot, ih]

theorem wmWit_tick (k : ℕ) (hk : k + 1 < 10) :
    (wmUpdate (wmWitState k) 1).1 = wmWitState (k + 1) := by
  have h1 : k < 10 := by omega
  have h2 : ¬ (k + 1 ≥ 10) := by omega
  norm_num [wmUpdate, wmSpawnPhase, wmWitState, spawnSlot_replicate_true,
    max_def, h1, h2]

theorem wmWit_tick9 : (wmUpdate (wmWitState 9) 1).1 = wmWitDead 0 := by
  norm_num [wmUpdate, wmSpawnPhase, wmWitState, wmWitDead,
    spawnSlot_replicate_true, max_def, List.count_replicate]

theorem wmWitDead_set (j : ℕ) (hj : j < 10) :
    ((wmWitDead j).enemies).set j false = (wmWitDead (j + 1)).enemies := by
  revert hj
  revert j
  decide

theorem wmWitDead_step (j : ℕ) (hj : j < 10)
    (h : ReachableW (wmWitDead j)) : ReachableW (wmWitDead (j + 1)) := by
  have h2 := ReachableW.reachEnd (wmWitDead j) j h
  have he : ({ wmWitDead j with
      enemies := ((wmWitDead j).enemies).set j false }) = wmWitDead (j + 1) := by
    simp only [wmWitDead_set j hj]
    simp [wmWitDead]
  exact he ▸ h2

theorem wmWitDead_reachable : ReachableW (wmWitDead 10) := by
  have r0 : ReachableW (wmWitState 0) := by
    have h := ReachableW.start initialWaveSys ReachableW.init
    have he : startNextWave initialWaveSys = wmWitState 0 := by
      norm_num [startNextWave, initialWaveSys, wmWitState,
        generateWaveComposition]
    exact he ▸ h
  have r1 : ReachableW (wmWitState 1) :=
    wmWit_tick 0 (by norm_num) ▸ ReachableW.tick _ 1 r0
  have r2 : ReachableW (wmWitState 2) :=
    wmWit_tick 1 (by norm_num) ▸ ReachableW.tick _ 1 r1
  have r3 : ReachableW (wmWitState 3) :=
    wmWit_tick 2 (by norm_num) ▸ ReachableW.tick _ 1 r2
  have r4 : ReachableW (wmWitState 4) :=
    wmWit_tick 3 (by norm_num) ▸ ReachableW.tick _ 1 r3
  have r5 : ReachableW (wmWitState 5) :=
    wmWit_tick 4 (by norm_num) ▸ ReachableW.tick _ 1 r4
  have r6 : ReachableW (wmWitState 6) :=
    wmWit_tick 5 (by norm_num) ▸ ReachableW.tick _ 1 r5
  have r7 : ReachableW (wmWitState 7) :=
    wmWit_tick 6 (by norm_num) ▸ ReachableW.tick _ 1 r6
  have r8 : ReachableW (wmWitState 8) :=
    wmWit_tick 7 (by norm_num) ▸ ReachableW.tick _ 1 r7
  have r9 : ReachableW (wmWitState 9) :=
    wmWit_tick 8 (by norm_num) ▸ ReachableW.tick _ 1 r8
  have rf : ReachableW (wmWitDead 0) :=
    wmWit_tick9 ▸ ReachableW.tick _ 1 r9
  have d1 := wmWitDead_step 0 (by norm_num) rf
  have d2 := wmWitDead_step 1 (by norm_num) d1
  have d3 := wmWitDead_step 2 (by norm_num) d2
  have d4 := wmWitDead_step 3 (by norm_num) d3
  have d5 := wmWitDead_step 4 (by norm_num) d4
  have d6 := wmWitDead_step 5 (by norm_num) d5
  have d7 := wmWitDead_step 6 (by norm_num) d6
  have d8 := wmWitDead_step 7 (by norm_num) d7
  have d9 := wmWitDead_step 8 (by norm_num) d8
  exact wmWitDead_step 9 (by norm_num) d9

/-- Witness for C1: in the reachable state with wave 1 fully spawned and
all 10 enemies gone, the next tick does trigger `endWave`, and the
theorem's conclusions hold there. -/
theorem endWave_trigger_conditions_witness :
    (wmUpdate (wmWitDead 10) 1).2 = true ∧
    (wmUpdate (wmWitDead 10) 1).1.spawned =
      (wmUpdate (wmWitDead 10) 1).1.enemiesToSpawn ∧
    (wmUpdate (wmWitDead 10) 1).1.enemies.count true = 0 := by
  have htr : (wmUpdate (wmWitDead 10) 1).2 = true := by
    norm_num [wmUpdate, wmSpawnPhase, wmWitDead, List.count_replicate]
  exact ⟨htr, endWave_trigger_conditions (wmWitDead 10) 1 wmWitDead_reachable htr⟩

/-! ## Skill tree (`SkillTree`, `SkillManager`, `renderSkillTree`) —
Revision 12 (`src/unnamed/part_002`) -/

/-- The eight node ids of the `SkillTree` object. -/
inductive SkillId where
  | multiShot
  | piercingShot
  | rapidFire
  | legolas
  | follower
  | spreadShot
  | godSpeed
  | repair
deriving DecidableEq, Repr

/-- A skill node: `{ maxLevel, unlockWave, requires, cost }` (name and
description strings are presentation-only). -/
structure SkillDef where
  maxLevel : ℕ
  unlockWave : ℕ
  requires : Option SkillId
  cost : ℚ
deriving DecidableEq, Repr

/-- The `SkillTree` catalogue. -/
def SkillTree : SkillId → SkillDef
  | .multiShot => ⟨10, 10, none, 500⟩
  | .piercingShot => ⟨10, 15, some .multiShot, 800⟩
  | .rapidFire => ⟨10, 15, some .multiShot, 1200⟩
  | .legolas => ⟨10, 20, some .rapidFire, 1500⟩
  | .follower => ⟨1, 25, some .piercingShot, 5000⟩
  | .spreadShot => ⟨10, 30, some .follower, 2500⟩
  | .godSpeed => ⟨10, 30, some .follower, 2000⟩
  | .repair => ⟨10, 35, some .godSpeed, 3000⟩

/-- The state touched by `SkillManager.purchaseSkill`: the gold pot, the
current wave (read only by the UI gate), `SkillManager.levels`, and the
hero fields `applySkillEffects` can write. -/
structure SkillState where
  gold : ℚ
  wave : ℕ
  levels : SkillId → ℕ
  heroFireRate : ℚ
  heroSpeed : ℚ
  hasFollower : Bool

/-- `SkillManager.getSkillCost(id)` =
`Math.floor(skill.cost * Math.pow(1.5, level))`. -/
def getSkillCost (levels : SkillId → ℕ) (id : SkillId) : ℤ :=
  ⌊(SkillTree id).cost * (3 / 2 : ℚ) ^ levels id⌋

/-- `SkillManager.applySkillEffects(id, levels)`: `legolas` adds
`0.5 * levels` fire rate, `godSpeed` adds `10 * levels` speed capped at
`MAXS.HERO_SPEED = 250`, `follower` spawns the follower once. -/
def applySkillEffects (s : SkillState) (id : SkillId) (lvls : ℕ) :
    SkillState :=
  let s1 :=
    if id = .legolas then
      { s with heroFireRate := s.heroFireRate + (5 / 10) * lvls }
    else s
  let s2 :=
    if id = .godSpeed then
      { s1 with heroSpeed := min 250 (s1.heroSpeed + 10 * lvls) }
    else s1
  if id = .follower ∧ s2.hasFollower = false then
    { s2 with hasFollower := true }
  else s2

/-- `SkillManager.purchaseSkill(id)`: succeeds exactly when
`gold >= cost && level < maxLevel` — note the source checks *neither*
`unlockWave` nor `requires` here — deducting the cost, incrementing the
level and applying the one-level effect; otherwise no mutation and the
error feedback (`false`). -/
def purchaseSkill (s : SkillState) (id : SkillId) : SkillState × Bool :=
  let cost := getSkillCost s.levels id
  if (cost : ℚ) ≤ s.gold ∧ s.levels id < (SkillTree id).maxLevel then
    (applySkillEffects
      { s with
        gold := s.gold - (cost : ℚ)
        levels := fun t => if t = id then s.levels t + 1 else s.levels t }
      id 1, true)
  else (s, false)

/-- The `renderSkillTree` gate: a node receives its purchase `onclick`
only when `isUnlocked && level < maxLevel`, with `isUnlocked` =
`wave >= unlockWave && (!requires || level(requires) > 0)`. -/
def skillNodeClickable (s : SkillState) (id : SkillId) : Bool :=
  ((decide ((SkillTree id).unlockWave ≤ s.wave)) &&
    (match (SkillTree id).requires with
      | none => true
      | some p => decide (0 < s.levels p))) &&
  decide (s.levels id < (SkillTree id).maxLevel)

theorem applySkillEffects_gold (s : SkillState) (id : SkillId) (n : ℕ) :
    (applySkillEffects s id n).gold = s.gold := by
  cases id <;> simp [applySkillEffects] <;> (try (split <;> rfl))

theorem applySkillEffects_levels (s : SkillState) (id : SkillId) (n : ℕ) :
    (applySkillEffects s id n).levels = s.levels := by
  cases id <;> simp [applySkillEffects] <;> (try (split <;> rfl))

/-- **C4 counterexample.** With 800 gold at wave 0 and every skill at
level 0, a direct `purchaseSkill('piercingShot')` *succeeds* — gold drops
to 0 and the level rises to 1 — although `wave < unlockWave (15)` and the
prerequisite `multiShot` is at level 0.  The claim, read over
`SkillManager.purchaseSkill`, is therefore false: the unlock-wave and
prerequisite conditions are not necessary for a successful purchase. -/
theorem purchaseSkill_bypasses_gating :
    (purchaseSkill ⟨800, 0, fun _ => 0, 12 / 10, 150, false⟩
        .piercingShot).2 = true ∧
    (purchaseSkill ⟨800, 0, fun _ => 0, 12 / 10, 150, false⟩
        .piercingShot).1.levels .piercingShot = 1 ∧
    (purchaseSkill ⟨800, 0, fun _ => 0, 12 / 10, 150, false⟩
        .piercingShot).1.gold = 0 ∧
    (SkillState.wave ⟨800, 0, fun _ => 0, 12 / 10, 150, false⟩ <
      (SkillTree .piercingShot).unlockWave) ∧
    (SkillTree .piercingShot).requires = some .multiShot ∧
    (SkillState.levels ⟨800, 0, fun _ => 0, 12 / 10, 150, false⟩)
        .multiShot = 0 := by
  norm_num +decide [purchaseSkill, getSkillCost, SkillTree, applySkillEffects]

/-- **C4 (amended).** `purchaseSkill(id)` succeeds iff
`gold ≥ getSkillCost(id)` and `level < maxLevel`; on success it deducts
exactly the cost and increments exactly that skill's level, and on failure
it leaves the state unchanged.  The `currentWave ≥ unlockWave` and
parent-prerequisite conditions of the claim are enforced only by the
skill-tree UI: a node is clickable only when all three claimed conditions
hold, so every UI-initiated purchase satisfies them. -/
theorem purchaseSkill_spec (s : SkillState) (id : SkillId) :
    ((purchaseSkill s id).2 = true ↔
      ((getSkillCost s.levels id : ℚ) ≤ s.gold ∧
        s.levels id < (SkillTree id).maxLevel)) ∧
    ((purchaseSkill s id).2 = false → (purchaseSkill s id).1 = s) ∧
    ((purchaseSkill s id).2 = true →
      (purchaseSkill s id).1.gold =
          s.gold - (getSkillCost s.levels id : ℚ) ∧
      (purchaseSkill s id).1.levels id = s.levels id + 1 ∧
      (∀ t : SkillId, t ≠ id →
        (purchaseSkill s id).1.levels t = s.levels t)) ∧
    (skillNodeClickable s id = true →
      (SkillTree id).unlockWave ≤ s.wave ∧
      ((SkillTree id).requires = none ∨
        (∃ p, (SkillTree id).requires = some p ∧ 0 < s.levels p)) ∧
      s.levels id < (SkillTree id).maxLevel) := by
  refine ⟨?_, ?_, ?_, ?_⟩
  · by_cases hc : (getSkillCost s.levels id : ℚ) ≤ s.gold ∧
        s.levels id < (SkillTree id).maxLevel <;>
      simp [purchaseSkill, hc]
  · by_cases hc : (getSkillCost s.levels id : ℚ) ≤ s.gold ∧
        s.levels id < (SkillTree id).maxLevel <;>
      simp [purchaseSkill, hc]
  · by_cases hc : (getSkillCost s.levels id : ℚ) ≤ s.gold ∧
        s.levels id < (SkillTree id).maxLevel <;>
      simp [purchaseSkill, hc, applySkillEffects_gold, applySkillEffects_levels]
  · intro hclick
    simp only [skillNodeClickable, Bool.and_eq_true, decide_eq_true_eq] at hclick
    obtain ⟨⟨hw, hreq⟩, hlev⟩ := hclick
    refine ⟨hw, ?_, hlev⟩
    cases hp : (SkillTree id).requires with
    | none => exact Or.inl rfl
    | some p =>
        rw [hp] at hreq
        exact Or.inr ⟨p, rfl, by simpa using hreq⟩

/-- Witness for C4 (amended): at wave 10 with 500 gold, `multiShot` is
clickable, the purchase succeeds, gold drops to 0 and its level becomes 1. -/
theorem purchaseSkill_spec_witness :
    (purchaseSkill ⟨500, 10, fun _ => 0, 12 / 10, 150, false⟩
        .multiShot).2 = true ∧
    (purchaseSkill ⟨500, 10, fun _ => 0, 12 / 10, 150, false⟩
        .multiShot).1.gold = 0 ∧
    (purchaseSkill ⟨500, 10, fun _ => 0, 12 / 10, 150, false⟩
        .multiShot).1.levels .multiShot = 1 ∧
    (SkillTree .multiShot).unlockWave ≤ 10 := by
  have h := purchaseSkill_spec ⟨500, 10, fun _ => 0, 12 / 10, 150, false⟩
    .multiShot
  have ht : (purchaseSkill ⟨500, 10, fun _ => 0, 12 / 10, 150, false⟩
      .multiShot).2 = true := by
    refine h.1.mpr ⟨?_, ?_⟩ <;> norm_num [getSkillCost, SkillTree]
  have heff := h.2.2.1 ht
  have h4 := h.2.2.2
  refine ⟨ht, ?_, heff.2.1, ?_⟩
  · rw [heff.1]
    norm_num [getSkillCost, SkillTree]
  · norm_num [SkillTree]

/-! ## Save / load (`saveGame` / `loadGame`, Revision 12)

The persisted document mirrors the JSON written by `saveGame`:
`{gold, wave, kills, gems, castle:{hp,maxHp},
hero:{damage,fireRate,range,crit,speed}, upgradeLevels, skillLevels}`.
A document produced by an older revision may lack `hero.speed` and
`skillLevels`; those fields are `Option`s.  `loadGame` reads
`data.hero.speed || 150` — JavaScript `||` substitutes 150 both for the
absent field (`undefined`) and for a stored 0 — and
`data.skillLevels || {}` (an absent table reads as all-zero levels via
`getSkillLevel`'s own `|| 0`). -/

structure CastleSave where
  hp : ℚ
  maxHp : ℚ

structure HeroSave where
  damage : ℚ
  fireRate : ℚ
  range : ℚ
  crit : ℚ
  speed : Option ℚ

structure SaveDoc where
  gold : ℚ
  wave : ℕ
  kills : ℕ
  gems : ℕ
  castle : CastleSave
  hero : HeroSave
  upgradeLevels : UStat → ℕ
  skillLevels : Option (SkillId → ℕ)

/-- The in-memory state `saveGame`/`loadGame` exchange with `TDState`,
`UpgradeManager` and `SkillManager`. -/
structure GameState where
  gold : ℚ
  wave : ℕ
  enemiesKilled : ℕ
  gemsEarned : ℕ
  castleHp : ℚ
  castleMaxHp : ℚ
  heroDamage : ℚ
  heroFireRate : ℚ
  heroRange : ℚ
  heroCrit : ℚ
  heroSpeed : ℚ
  upgradeLevels : UStat → ℕ
  skillLevels : SkillId → ℕ

/-- `saveGame()`: serialise the live state (every field present). -/
def saveGame (s : GameState) : SaveDoc :=
  { gold := s.gold, wave := s.wave, kills := s.enemiesKilled,
    gems := s.gemsEarned, castle := ⟨s.castleHp, s.castleMaxHp⟩,
    hero := ⟨s.heroDamage, s.heroFireRate, s.heroRange, s.heroCrit,
      some s.heroSpeed⟩,
    upgradeLevels := s.upgradeLevels, skillLevels := some s.skillLevels }

/-- `loadGame()` applied to a parsed document: copy every stored field
onto the live state, defaulting `hero.speed` through `|| 150` and
`skillLevels` through `|| {}`. -/
def loadGame (doc : SaveDoc) (s : GameState) : GameState :=
  { s with
    gold := doc.gold
    wave := doc.wave
    enemiesKilled := doc.kills
    gemsEarned := doc.gems
    castleHp := doc.castle.hp
    castleMaxHp := doc.castle.maxHp
    heroDamage := doc.hero.damage
    heroFireRate := doc.hero.fireRate
    heroRange := doc.hero.range
    heroCrit := doc.hero.crit
    heroSpeed :=
      match doc.hero.speed with
      | none => 150
      | some v => if v = 0 then 150 else v
    upgradeLevels := doc.upgradeLevels
    skillLevels := doc.skillLevels.getD (fun _ => 0) }

/-- **C6.** Save→load round trip: for every in-memory state, loading the
document `saveGame` produced reproduces `gold`, `wave`, `kills`, `gems`,
`castle.hp` and the hero's `damage`/`range`/`fireRate`/`crit` exactly;
and a stored document with no `hero.speed` field loads with the base
starting speed 150. -/
theorem saveGame_loadGame_roundtrip :
    (∀ (s s₀ : GameState),
      (loadGame (saveGame s) s₀).gold = s.gold ∧
      (loadGame (saveGame s) s₀).wave = s.wave ∧
      (loadGame (saveGame s) s₀).enemiesKilled = s.enemiesKilled ∧
      (loadGame (saveGame s) s₀).gemsEarned = s.gemsEarned ∧
      (loadGame (saveGame s) s₀).castleHp = s.castleHp ∧
      (loadGame (saveGame s) s₀).heroDamage = s.heroDamage ∧
      (loadGame (saveGame s) s₀).heroRange = s.heroRange ∧
      (loadGame (saveGame s) s₀).heroFireRate = s.heroFireRate ∧
      (loadGame (saveGame s) s₀).heroCrit = s.heroCrit) ∧
    (∀ (doc : SaveDoc) (s₀ : GameState), doc.hero.speed = none →
      (loadGame doc s₀).heroSpeed = 150) := by
  constructor
  · intro s s₀
    simp [loadGame, saveGame]
  · intro doc s₀ h
    simp [loadGame, h]

/-- Witness for C6: a pre-Revision-12 document (no `hero.speed`, no
`skillLevels`) loads with `heroSpeed = 150`, and a concrete round trip
reproduces the gold value. -/
theorem saveGame_loadGame_roundtrip_witness :
    (loadGame ⟨250, 3, 12, 4, ⟨900, 1000⟩, ⟨37, 3 / 2, 200, 8, none⟩,
        fun _ => 1, none⟩
      ⟨100, 0, 0, 0, 1000, 1000, 25, 12 / 10, 180, 5, 150,
        fun _ => 0, fun _ => 0⟩).heroSpeed = 150 ∧
    (loadGame
        (saveGame ⟨250, 3, 12, 4, 900, 1000, 37, 3 / 2, 200, 8, 170,
          fun _ => 1, fun _ => 0⟩)
        ⟨100, 0, 0, 0, 1000, 1000, 25, 12 / 10, 180, 5, 150,
          fun _ => 0, fun _ => 0⟩).gold = 250 := by
  constructor
  · exact saveGame_loadGame_roundtrip.2 _ _ rfl
  · exact (saveGame_loadGame_roundtrip.1 _ _).1

/-! ## Projectiles

Two distinct revisions are in the repository.  The Revision-8
`Projectile.update` (`src/game.js`) checks `!this.target.active` in its
early-return guard; the Revision-12 one (`src/unnamed/part_002`) does
*not* — it only checks its own `active` flag and the 3000 ms age failsafe,
then homes toward the target's coordinates and collides with any active
enemy.  As explained in the header, the value of `Math.hypot(dx, dy)` is
passed as the `dist` argument (theorems constrain it by
`0 ≤ dist ∧ dist^2 = dx^2 + dy^2`), and pure comparisons of a hypot
against a bound `c ≥ 0` are written as the equivalent `dx^2 + dy^2 < c^2`. -/

/-- Revision-8 projectile state (`speed` is fixed to 500 by `init`). -/
structure Proj where
  active : Bool
  x : ℚ
  y : ℚ
  damage : ℚ
  speed : ℚ
  spawnTime : ℚ
  isCrit : Bool
deriving DecidableEq, Repr

/-- Revision-8 `Projectile.update(dt)`: deactivate (dealing no damage) when
already inactive, when the tracked target is inactive, or when older than
3000 ms; otherwise hit the target (`dist < 10`, squared form) or move
toward it.  Returns the projectile, the (possibly damaged) target and any
SPLIT children the hit produced. -/
def projUpdate (p : Proj) (target : Enemy) (tnow dt dist : ℚ) :
    Proj × Enemy × List Enemy :=
  if p.active = false ∨ target.active = false ∨ tnow - p.spawnTime > 3000 then
    ({ p with active := false }, target, [])
  else
    let dx := target.x - p.x
    let dy := target.y - p.y
    if dx ^ 2 + dy ^ 2 < 10 ^ 2 then
      let r := enemyTakeDamage target p.damage
      ({ p with active := false }, r.1, r.2)
    else
      ({ p with
          x := p.x + dx / dist * p.speed * dt
          y := p.y + dy / dist * p.speed * dt }, target, [])

/-- Revision-12 projectile state: adds `pierceLeft`
(`SkillManager.getSkillLevel('piercingShot')` at init, decremented per hit,
may go negative) and `hitEnemies` (already-hit enemies; the source stores
object references, modelled here as pool indices valid for the tick). -/
structure Proj2 where
  active : Bool
  x : ℚ
  y : ℚ
  damage : ℚ
  isCrit : Bool
  spawnTime : ℚ
  pierceLeft : ℤ
  hitEnemies : List ℕ
deriving DecidableEq, Repr

/-- Pool placement of a freshly-initialised SPLIT child during the
collision pass: `TDState.enemies.find(en => !en.active)` is overwritten,
else the child is pushed. -/
def placeChild : List Enemy → Enemy → List Enemy
  | [], c => [c]
  | e :: rest, c => if e.active then e :: placeChild rest c else c :: rest

/-- One iteration of the Revision-12 collision `forEach`: at pool index
`i`, if the projectile is still active, the enemy is active, not already
hit, and overlaps (`hypot < e.size/2`, squared form), damage it, place any
SPLIT children, decrement pierce, record the hit, and deactivate the
projectile once `pierceLeft < 0`. -/
def proj2CollideStep (st : Proj2 × List Enemy) (i : ℕ) :
    Proj2 × List Enemy :=
  let p := st.1
  let es := st.2
  match es[i]? with
  | none => (p, es)
  | some e =>
    if p.active = true ∧ e.active = true ∧ i ∉ p.hitEnemies ∧
        (p.x - e.x) ^ 2 + (p.y - e.y) ^ 2 < (e.size / 2) ^ 2 then
      let r := enemyTakeDamage e p.damage
      let es1 := r.2.foldl placeChild (es.set i r.1)
      let p1 := { p with
        pierceLeft := p.pierceLeft - 1
        hitEnemies := i :: p.hitEnemies }
      let p2 := if p1.pierceLeft < 0 then { p1 with active := false } else p1
      (p2, es1)
    else (p, es)

/-- The collision `forEach` over the enemy pool.  JavaScript `forEach`
fixes the index range at entry (children pushed past the original length
are not visited) but reads the current element at each index — both
captured by folding `proj2CollideStep` over `range es.length`. -/
def proj2Collide (p : Proj2) (es : List Enemy) : Proj2 × List Enemy :=
  (List.range es.length).foldl proj2CollideStep (p, es)

/-- Revision-12 `Projectile.update(dt)`: early-return only on own
inactivity or the 3000 ms age failsafe — the tracked target's `active`
flag is never consulted; then move toward the target's current coordinates
`(tx, ty)` at `500 + 50 * legolasLevel` px/s, run the collision pass, and
deactivate when the (pre-move) distance to the target exceeded 2000 px. -/
def proj2Update (p : Proj2) (es : List Enemy) (tx ty : ℚ)
    (legolasLevel : ℕ) (tnow dt dist : ℚ) : Proj2 × List Enemy :=
  if p.active = false ∨ tnow - p.spawnTime > 3000 then
    ({ p with active := false }, es)
  else
    let projectileSpeed : ℚ := 500 + legolasLevel * 50
    let dx := tx - p.x
    let dy := ty - p.y
    let p1 := { p with
      x := p.x + dx / dist * projectileSpeed * dt
      y := p.y + dy / dist * projectileSpeed * dt }
    let r := proj2Collide p1 es
    let p3 := if dist > 2000 then { r.1 with active := false } else r.1
    (p3, r.2)

/-- The Revision-12 projectile of the C7 counterexample: active at the
origin, 25 damage, spawned at t = 0, no pierce, nothing hit yet. -/
def staleTargetProj : Proj2 := ⟨true, 0, 0, 25, false, 0, 0, []⟩

/-- The pool of the C7 counterexample: slot 0 is the tracked target,
already inactive, at `(100, 0)`; slot 1 is a live NORMAL enemy at
`(5, 0)`, exactly where the projectile lands after moving
`500 * 0.01 = 5` px toward the target. -/
def staleTargetPool : List Enemy :=
  [⟨false, 100, 0, 0, 30, 40, 5, 20, none⟩,
   ⟨true, 5, 0, 30, 30, 40, 5, 20, none⟩]

/-- **C7 counterexample.** In the Revision-12 projectile, an update tick
whose tracked target (pool slot 0) is inactive, with age 0 ms and the
`dist` argument equal to the true distance 100, still *damages* another
active enemy: slot 1 drops from 30 hp to 5 hp.  The claim that such an
update "applies no damage to any enemy" is false for this revision. -/
theorem proj2_stale_target_counterexample :
    (staleTargetPool.map Enemy.active)[0]? = some false ∧
    ¬((0 : ℚ) - staleTargetProj.spawnTime > 3000) ∧
    (0 : ℚ) ≤ 100 ∧
    (100 : ℚ) ^ 2 =
      (100 - staleTargetProj.x) ^ 2 + (0 - staleTargetProj.y) ^ 2 ∧
    ((proj2Update staleTargetProj staleTargetPool 100 0 0 0 (1 / 100)
        100).2.map Enemy.hp)[1]? = some 5 := by
  refine ⟨rfl, by norm_num [staleTargetProj], by norm_num,
    by norm_num [staleTargetProj], ?_⟩
  norm_num [proj2Update, proj2Collide, proj2CollideStep, enemyTakeDamage,
    enemyDie, placeChild, staleTargetProj, staleTargetPool, List.range_succ]

/-- **C7 (amended).** In the Revision-8 (`game.js`) projectile, an update
whose tracked target is inactive at the start of the tick — or whose age
exceeds 3000 ms — deactivates the projectile and applies no damage to any
enemy.  In the Revision-12 projectile only the age-3000 ms half holds:
the age failsafe deactivates without damage, but an inactive tracked
target does not stop the projectile (see the counterexample). -/
theorem projectile_stale_target_deactivates :
    (∀ (p : Proj) (target : Enemy) (tnow dt dist : ℚ),
      (target.active = false ∨ tnow - p.spawnTime > 3000) →
      projUpdate p target tnow dt dist = ({ p with active := false }, target, [])) ∧
    (∀ (p : Proj2) (es : List Enemy) (tx ty : ℚ) (lvl : ℕ)
        (tnow dt dist : ℚ),
      tnow - p.spawnTime > 3000 →
      proj2Update p es tx ty lvl tnow dt dist = ({ p with active := false }, es)) := by
  constructor
  · intro p target tnow dt dist h
    rcases h with h | h <;> simp [projUpdate, h]
  · intro p es tx ty lvl tnow dt dist h
    simp [proj2Update, h]

/-- Witness for C7 (amended): a live game.js projectile whose target just
died deactivates without touching it, and a Revision-12 projectile aged
4000 ms deactivates leaving the (empty) pool alone. -/
theorem projectile_stale_target_deactivates_witness :
    projUpdate ⟨true, 0, 0, 25, 500, 0, false⟩
        ⟨false, 50, 0, 0, 30, 40, 5, 20, none⟩ 100 (1 / 100) 50 =
      (⟨false, 0, 0, 25, 500, 0, false⟩,
        ⟨false, 50, 0, 0, 30, 40, 5, 20, none⟩, []) ∧
    proj2Update ⟨true, 0, 0, 25, false, 0, 0, []⟩ [] 50 0 0 4000 (1 / 100) 50 =
      (⟨false, 0, 0, 25, false, 0, 0, []⟩, []) := by
  constructor
  · exact projectile_stale_target_deactivates.1 _ _ _ _ _ (Or.inl rfl)
  · exact projectile_stale_target_deactivates.2 _ _ _ _ _ _ _ _ (by norm_num)

end Tower
